import Mathlib

/-!
Shallow embedding of the Speedcamwarner voice-dispatch and map-marker
subsystems (src/python/AccusticWarnerThread.py and
src/python/osm_wrapper_ported.py), together with theorems settling the
specification claims about them.

Python heterogeneous values (numbers and strings stored in attribute
lists, coordinates compared with ==) are modelled by the type Val below;
the claims under study only compare coordinates for equality, never
perform float arithmetic, so numeric values are carried as integers.
-/

/-- A Python attribute value as it occurs in the camera and construction
attribute lists: either a numeric value or a string. -/
inductive Val where
  | num (n : Int)
  | str (s : String)
deriving DecidableEq

namespace VoicePromptThread

/-- Embedding of os.path.join as used for the sound asset paths. -/
def pjoin (base name : String) : String := base ++ "/" ++ name

/-- Embedding of the static trigger-to-asset chain of
VoicePromptThread.process (the long elif ladder, source lines 153-246).
The result none models the cases where the local variable sound stays
None: the initial assignment, the two triggers whose assignments are
commented out in the source (OSM_DATA_ERROR, EMPTY_DATASET_FROM_SERVER)
and the final catch-all else branch. -/
def resolve_static_sound (basePath voice_entry : String) : Option String :=
  if voice_entry = "EXIT_APPLICATION" then some (pjoin basePath "app_exit.wav")
  else if voice_entry = "ADDED_POLICE" then some (pjoin basePath "police_added.wav")
  else if voice_entry = "ADDING_POLICE_FAILED" then some (pjoin basePath "police_failed.wav")
  else if voice_entry = "STOP_APPLICATION" then some (pjoin basePath "app_stopped.wav")
  else if voice_entry = "OSM_DATA_ERROR" then none
  else if voice_entry = "INTERNET_CONN_FAILED" then some (pjoin basePath "inet_failed.wav")
  else if voice_entry = "HAZARD" then some (pjoin basePath "hazard.wav")
  else if voice_entry = "EMPTY_DATASET_FROM_SERVER" then none
  else if voice_entry = "LOW_DOWNLOAD_DATA_RATE" then some (pjoin basePath "low_download_rate.wav")
  else if voice_entry = "GPS_OFF" then some (pjoin basePath "gps_off.wav")
  else if voice_entry = "GPS_LOW" then some (pjoin basePath "gps_weak.wav")
  else if voice_entry = "GPS_ON" then some (pjoin basePath "gps_established.wav")
  else if voice_entry = "SPEEDCAM_BACKUP" then some (pjoin basePath "camera_backup.wav")
  else if voice_entry = "SPEEDCAM_REINSERT" then some (pjoin basePath "speed_cam_reinserted.wav")
  else if voice_entry = "FIX_100" then some (pjoin basePath "fix_100.wav")
  else if voice_entry = "TRAFFIC_100" then some (pjoin basePath "traffic_100.wav")
  else if voice_entry = "MOBILE_100" then some (pjoin basePath "mobile_100.wav")
  else if voice_entry = "DISTANCE_100" then some (pjoin basePath "distance_100.wav")
  else if voice_entry = "FIX_300" then some (pjoin basePath "fix_300.wav")
  else if voice_entry = "TRAFFIC_300" then some (pjoin basePath "traffic_300.wav")
  else if voice_entry = "MOBILE_300" then some (pjoin basePath "mobile_300.wav")
  else if voice_entry = "DISTANCE_300" then some (pjoin basePath "distance_300.wav")
  else if voice_entry = "FIX_500" then some (pjoin basePath "fix_500.wav")
  else if voice_entry = "TRAFFIC_500" then some (pjoin basePath "traffic_500.wav")
  else if voice_entry = "MOBILE_500" then some (pjoin basePath "mobile_500.wav")
  else if voice_entry = "DISTANCE_500" then some (pjoin basePath "distance_500.wav")
  else if voice_entry = "FIX_1000" then some (pjoin basePath "fix_1000.wav")
  else if voice_entry = "TRAFFIC_1000" then some (pjoin basePath "traffic_1000.wav")
  else if voice_entry = "MOBILE_1000" then some (pjoin basePath "mobile_1000.wav")
  else if voice_entry = "DISTANCE_1000" then some (pjoin basePath "distance_1000.wav")
  else if voice_entry = "FIX_NOW" then some (pjoin basePath "fix_now.wav")
  else if voice_entry = "TRAFFIC_NOW" then some (pjoin basePath "traffic_now.wav")
  else if voice_entry = "MOBILE_NOW" then some (pjoin basePath "mobile_now.wav")
  else if voice_entry = "DISTANCE_NOW" then some (pjoin basePath "distance_now.wav")
  else if voice_entry = "CAMERA_AHEAD" then some (pjoin basePath "camera_ahead.wav")
  else if voice_entry = "WATER" then some (pjoin basePath "water.wav")
  else if voice_entry = "ACCESS_CONTROL" then some (pjoin basePath "access_control.wav")
  else if voice_entry = "POI_SUCCESS" then some (pjoin basePath "poi_success.wav")
  else if voice_entry = "POI_FAILED" then some (pjoin basePath "poi_failed.wav")
  else if voice_entry = "NO_ROUTE" then some (pjoin basePath "no_route.wav")
  else if voice_entry = "ROUTE_STOPPED" then some (pjoin basePath "route_stopped.wav")
  else if voice_entry = "POI_REACHED" then some (pjoin basePath "poi_reached.wav")
  else if voice_entry = "ANGLE_MISMATCH" then some (pjoin basePath "angle_mismatch.wav")
  else if voice_entry = "AR_HUMAN" then some (pjoin basePath "human.wav")
  else none

/-- Result of the static-mode tail of VoicePromptThread.process: the value
of the exclusivity flag when process returns and the sound, if any, handed
to Clock.schedule_once for playback. -/
structure StaticDispatch where
  lock : Bool
  scheduled : Option String
deriving DecidableEq

/-- Embedding of the static-mode tail of VoicePromptThread.process (source
lines 248-250): when the elif ladder resolved a sound, the exclusivity
flag is set and play_sound is scheduled; when it resolved nothing, the
dispatch falls through with no playback, no flag change and no error. -/
def process_static (basePath voice_entry : String) (lock0 : Bool) : StaticDispatch :=
  match resolve_static_sound basePath voice_entry with
  | some sound => { lock := true, scheduled := some sound }
  | none => { lock := lock0, scheduled := none }

/-- A loaded kivy Sound object; only the existence of the object matters
to the control flow of play_sound. -/
structure SoundObj where
  length : Int
deriving DecidableEq

/-- Outcome of a play_sound call that returned normally: the exclusivity
flag at return time and whether playback was started. -/
structure PlayOutcome where
  lock : Bool
  started : Bool
deriving DecidableEq

/-- Embedding of VoicePromptThread.play_sound (source lines 69-78). The
input is the result of SoundLoader.load, which is None when no loader can
handle the asset. The source executes the statement setting s.buffer
before the truthiness check on s, so a None result raises AttributeError
right there: the else branch that would clear the exclusivity flag is
never reached and the flag keeps its previous value. On a loaded sound,
playback starts and the flag is left set, to be cleared later by
on_sound_playback_finished. -/
def play_sound (loaded : Option SoundObj) (lock0 : Bool) : Except String PlayOutcome :=
  match loaded with
  | none => Except.error "AttributeError: NoneType has no attribute buffer"
  | some _ => Except.ok { lock := lock0, started := true }

/-- Embedding of VoicePromptThread.on_sound_playback_finished: the
completion callback always clears the exclusivity flag. -/
def on_sound_playback_finished (_lock0 : Bool) : Bool := false

/-- The four event queues owned by the voice-prompt worker, all cleared by
the paused branch of run (source lines 56-59). -/
structure VoiceQueues where
  gpssignalqueue : List String
  maxspeedexceededqueue : List String
  onlinequeue : List String
  arqueue : List String
deriving DecidableEq

/-- Embedding of the paused branch of VoicePromptThread.run: all four
owned queues are cleared. -/
def run_paused (_q : VoiceQueues) : VoiceQueues :=
  { gpssignalqueue := [], maxspeedexceededqueue := [], onlinequeue := [], arqueue := [] }

/-- Embedding of the terminal block of VoicePromptThread.run (source lines
63-67, executed after the while loop observes the termination flag): the
GPS-signal, max-speed-exceeded and online queues are cleared, the
termination message is logged and the thread stops. clear_arqueue is not
called in this block. -/
def run_terminal (q : VoiceQueues) : VoiceQueues × String :=
  ({ q with gpssignalqueue := [], maxspeedexceededqueue := [], onlinequeue := [] },
   "VoicePromptThread terminating")

/-- All four owned voice queues are empty. -/
def all_voice_queues_empty (q : VoiceQueues) : Prop :=
  q.gpssignalqueue = [] ∧ q.maxspeedexceededqueue = [] ∧
  q.onlinequeue = [] ∧ q.arqueue = []

instance (q : VoiceQueues) : Decidable (all_voice_queues_empty q) := by
  unfold all_voice_queues_empty; infer_instance

end VoicePromptThread

namespace OSMThread

/-- The two event queues owned by the OSM map worker (map-update queue and
POI queue). -/
structure OsmQueues where
  map_queue : List String
  poi_queue : List String
deriving DecidableEq

/-- Embedding of the paused branch of OSMThread.run (source lines 91-93):
both owned queues are cleared. -/
def run_paused (_q : OsmQueues) : OsmQueues :=
  { map_queue := [], poi_queue := [] }

/-- Embedding of the terminal block of OSMThread.run (source lines 96-97,
executed after the while loop observes the termination flag): the thread
logs the termination message and stops; neither owned queue is cleared. -/
def run_terminal (q : OsmQueues) : OsmQueues × String :=
  (q, "OSMThread terminating")

/-- The item consumed from the POI queue, dispatched on in
OSMThread.process by isinstance tests: a list of POIs, a tuple carrying a
route request, or anything else. POIs and route endpoints are abstracted
to integer identifiers, since process only stores them. -/
inductive PoiItem where
  | plist (xs : List Int)
  | ptuple (fst snd : Int)
  | other
deriving DecidableEq

/-- The outcome of one osm_wrapper.draw_map call: success, or one of the
two network exceptions that OSMThread.process catches (socket.gaierror
and urllib3 NewConnectionError). -/
inductive DrawOutcome where
  | ok
  | gaierror
  | newConnectionError
deriving DecidableEq

/-- The error text carried by a failing draw_map call, as logged. -/
def draw_error_message : DrawOutcome → String
  | DrawOutcome.ok => ""
  | DrawOutcome.gaierror => "gaierror"
  | DrawOutcome.newConnectionError => "NewConnectionError"

/-- State read and written by one OSMThread.process iteration: the
class-level trigger, POI working set and pois-drawn flag, the last stored
route, and observable counters for the draw requests issued, the draws
completed and the error log lines emitted. -/
structure RouterState where
  trigger : String
  POIS : List Int
  pois_drawn : Bool
  last_route : Option (Int × Int)
  draw_attempts : Nat
  draws_completed : Nat
  error_logs : List (String × String)
deriving DecidableEq

/-- The initial class-level state of OSMThread (class attributes
pois_drawn = False, trigger DRAW_POIS, POIS empty; last_route None). -/
def init_router : RouterState :=
  { trigger := "DRAW_POIS", POIS := [], pois_drawn := false, last_route := none,
    draw_attempts := 0, draws_completed := 0, error_logs := [] }

/-- Embedding of one guarded draw_map call inside OSMThread.process: the
try block requests a draw; on success the draw completes, while the two
caught network exceptions are logged at ERROR severity via print_log_line
and swallowed, so the call always returns. -/
def try_draw_map (d : DrawOutcome) (st : RouterState) : RouterState :=
  match d with
  | DrawOutcome.ok =>
      { st with draw_attempts := st.draw_attempts + 1,
                draws_completed := st.draws_completed + 1 }
  | DrawOutcome.gaierror =>
      { st with draw_attempts := st.draw_attempts + 1,
                error_logs := st.error_logs ++ [("ERROR", draw_error_message DrawOutcome.gaierror)] }
  | DrawOutcome.newConnectionError =>
      { st with draw_attempts := st.draw_attempts + 1,
                error_logs := st.error_logs ++ [("ERROR", draw_error_message DrawOutcome.newConnectionError)] }

/-- Embedding of the POI branch of OSMThread.process (source lines
105-117): a list sets the DRAW_POIS trigger, replaces the POI working
set, resets pois_drawn when the batch is non-empty and requests a guarded
draw; a tuple sets the route trigger and stores the route; any other item
leaves the state unchanged. -/
def poi_phase (pois : PoiItem) (d : DrawOutcome) (st : RouterState) : RouterState :=
  match pois with
  | PoiItem.plist xs =>
      try_draw_map d
        { st with trigger := "DRAW_POIS", POIS := xs,
                  pois_drawn := if xs.length > 0 then false else st.pois_drawn }
  | PoiItem.ptuple a b =>
      { st with trigger := "CALCULATE_ROUTE_TO_NEAREST_POI", last_route := some (a, b) }
  | PoiItem.other => st

/-- Embedding of the sentinel branch of OSMThread.process (source lines
118-124): the EXIT sentinel returns at once, the UPDATE sentinel requests
one guarded draw, any other item falls off the end of process. -/
def item_phase (item : String) (d : DrawOutcome) (st : RouterState) : RouterState :=
  if item = "EXIT" then st
  else if item = "UPDATE" then try_draw_map d st
  else st

/-- Embedding of OSMThread.process as the sequence of its POI branch and
its map-item branch; the two draw_map calls get independent outcomes.
The function is total: the two caught network exceptions are the only
failure modes modelled, so process always returns to its consume loop. -/
def process (item : String) (pois : PoiItem) (dPois dItem : DrawOutcome)
    (st : RouterState) : RouterState :=
  item_phase item dItem (poi_phase pois dPois st)

end OSMThread

namespace Maps

/-- A rendered marker as far as the registry logic observes it: the source
compares markers only through their lon and lat attributes; the key field
records which attribute tuple the marker was built from (it selects the
icon and the popup content). -/
structure Marker where
  lat : Val
  lon : Val
  key : String
deriving DecidableEq

/-- The flattened 8-tuple built by Maps.get_unique_speed_cam_list:
(key, lat, lon, name, direction, maxspeed, maxspeed_conditional,
description). -/
structure SpeedCamTuple where
  key : String
  lat : Val
  lon : Val
  name : Val
  direction : Val
  maxspeed : Val
  maxspeed_conditional : Val
  description : Val
deriving DecidableEq

/-- Embedding of the tuple construction inside get_unique_speed_cam_list
(source line 452): attributes at positions 0 and 1 are read
unconditionally (an attribute list shorter than two would raise
IndexError, modelled as none), and positions 7 to 11 fall back to the
placeholder defaults when the attribute list is too short, exactly as the
conditional expressions in the source do. -/
def mkSpeedCamTuple (k : String) (attrs : List Val) : Option SpeedCamTuple :=
  match attrs with
  | a0 :: a1 :: _ =>
      some { key := k, lat := a0, lon := a1,
             name := attrs.getD 7 (Val.str "---"),
             direction := attrs.getD 8 (Val.str "---"),
             maxspeed := attrs.getD 9 (Val.str "--- Km/h"),
             maxspeed_conditional := attrs.getD 10 (Val.str "@ Always"),
             description := attrs.getD 11 (Val.str "---") }
  | _ => none

/-- One camera dictionary taken from a processing queue: camera key to
attribute list, iterated in insertion order as Python 3 dictionaries are. -/
abbrev CamAttrDict := List (String × List Val)

/-- Flattening of one dictionary into 8-tuples, in iteration order; an
IndexError from a too-short attribute list propagates as none. -/
def flatten_dict : CamAttrDict → Option (List SpeedCamTuple)
  | [] => some []
  | kv :: rest =>
      match mkSpeedCamTuple kv.1 kv.2 with
      | none => none
      | some t =>
          match flatten_dict rest with
          | none => none
          | some ts => some (t :: ts)

/-- Flattening of the whole consumed queue contents (the two nested for
loops of get_unique_speed_cam_list, source lines 450-452). -/
def flatten_speed_cams : List CamAttrDict → Option (List SpeedCamTuple)
  | [] => some []
  | d :: rest =>
      match flatten_dict d with
      | none => none
      | some ts =>
          match flatten_speed_cams rest with
          | none => none
          | some rs => some (ts ++ rs)

/-- Embedding of Maps.get_unique_speed_cam_list applied to the consumed
queue contents: flatten every dictionary to 8-tuples, then deduplicate by
exact tuple equality. The source builds list(set(speed_cams)); a Python
set iterates in an unspecified order, and the claims under study depend
only on the resulting distinct-element collection, so the deduplication is
modelled by List.dedup. -/
def get_unique_speed_cam_list (pc : List CamAttrDict) : Option (List SpeedCamTuple) :=
  (flatten_speed_cams pc).map List.dedup

/-- State touched by Maps.draw_speed_cams: the camera marker registry
markers_cams, the marker widgets added to the map view, and the duplicate
log lines emitted. -/
structure DrawCamsState where
  markers_cams : List Marker
  widgets : List Marker
  logs : List String
deriving DecidableEq

/-- Embedding of the body of the draw_speed_cams loop for one attribute
tuple (source lines 330-366): a marker is built from the tuple, the
coordinate-equality scan over markers_cams logs a duplicate message when a
marker with the same lon and lat is already rendered, and the marker is
then appended to markers_cams and added to the map view in either case:
the duplicate branch of the source only logs and does not skip the
remainder of the loop body. -/
def draw_one_cam (st : DrawCamsState) (t : SpeedCamTuple) : DrawCamsState :=
  let marker : Marker := { lat := t.lat, lon := t.lon, key := t.key }
  let dup := st.markers_cams.any (fun m => m.lon == marker.lon && m.lat == marker.lat)
  { markers_cams := st.markers_cams ++ [marker],
    widgets := st.widgets ++ [marker],
    logs := if dup then st.logs ++ ["Ignore adding marker, already added into map"]
            else st.logs }

/-- Embedding of Maps.draw_speed_cams restricted to one batch of flattened
camera tuples; the source folds this body over the osm, cloud and db lists
in order. -/
def draw_speed_cams (cams : List SpeedCamTuple) (st : DrawCamsState) : DrawCamsState :=
  cams.foldl draw_one_cam st

/-- One entry of a calculator dictionary: the source reads entry at index
2 as latitude and index 3 as longitude; the remaining positions take part
only through dictionary equality inside list.remove. -/
structure CalcEntry where
  f0 : Val
  f1 : Val
  lat : Val
  lon : Val
  rest : List Val
deriving DecidableEq

/-- One dictionary of the calculator lists speed_cam_dict and
construction_areas: camera key to entry, iterated in insertion order. -/
abbrev CalcDict := List (String × CalcEntry)

/-- Embedding of Python list.remove: remove the first element equal to x;
none models the ValueError raised when no element equals x. -/
def pyListRemove {α : Type} [DecidableEq α] : List α → α → Option (List α)
  | [], _ => none
  | y :: ys, x => if y = x then some ys else (pyListRemove ys x).map (fun l => y :: l)

/-- Inner loop of remove_camera_from_calculator_thread (source lines
425-430): iterate the items of dictionary d; every entry whose latitude
and longitude match the target triggers speed_cam_dict.remove(d) on the
current list, whose failure (ValueError) propagates as none. -/
def remove_cam_inner (latitude longitude : Val) (d : CalcDict) :
    List (String × CalcEntry) → List CalcDict → Option (List CalcDict)
  | [], lst => some lst
  | kv :: rest, lst =>
      if kv.2.lat = latitude ∧ kv.2.lon = longitude then
        match pyListRemove lst d with
        | none => none
        | some lst2 => remove_cam_inner latitude longitude d rest lst2
      else remove_cam_inner latitude longitude d rest lst

/-- Outer loop of remove_camera_from_calculator_thread (source line 424):
Python iterates speed_cam_dict by an internal index while list.remove
shrinks the list, so the index keeps advancing over the mutated list and
the element shifted into a removed slot is skipped. The fuel argument
bounds the number of iterations; the initial list length suffices, since
the index grows by one per step and the list never grows. -/
def remove_cam_outer (latitude longitude : Val) :
    Nat → Nat → List CalcDict → Option (List CalcDict)
  | 0, _, lst => some lst
  | fuel + 1, i, lst =>
      if h : i < lst.length then
        match remove_cam_inner latitude longitude (lst.get ⟨i, h⟩) (lst.get ⟨i, h⟩) lst with
        | none => none
        | some lst2 => remove_cam_outer latitude longitude fuel (i + 1) lst2
      else some lst

/-- Embedding of Maps.remove_camera_from_calculator_thread (source lines
422-430): a missing calculator reference makes the call a no-op, otherwise
the nested loops above walk speed_cam_dict. -/
def remove_camera_from_calculator_thread (longitude latitude : Val) :
    Option (List CalcDict) → Option (Option (List CalcDict))
  | none => some none
  | some lst => (remove_cam_outer latitude longitude lst.length 0 lst).map some

/-- State touched by Maps.remove_marker_from_map: the camera marker
registry, the calculator speed_cam_dict (none when no calculator is set)
and the markers removed from the map view, in call order. -/
structure RemoveState where
  markers_cams : List Marker
  speed_cam_dict : Option (List CalcDict)
  removed_from_view : List Marker
deriving DecidableEq

/-- Loop of remove_marker_from_map over the snapshot of matching markers
(source lines 401-405): each match is first reconciled against the
calculator, then removed from the map view, then removed from
markers_cams under a membership guard (Python list.remove of a present
element removes its first occurrence, which is List.erase). -/
def remove_markers_loop : List Marker → RemoveState → Option RemoveState
  | [], st => some st
  | m :: rest, st =>
      match remove_camera_from_calculator_thread m.lon m.lat st.speed_cam_dict with
      | none => none
      | some calc2 =>
          remove_markers_loop rest
            { markers_cams := if m ∈ st.markers_cams then st.markers_cams.erase m
                              else st.markers_cams,
              speed_cam_dict := calc2,
              removed_from_view := st.removed_from_view ++ [m] }

/-- Embedding of Maps.remove_marker_from_map (source lines 397-405): the
registry is filtered for coordinate matches into a snapshot list, and when
the snapshot is non-empty each match is removed from calculator, map view
and registry. -/
def remove_marker_from_map (lon lat : Val) (st : RemoveState) : Option RemoveState :=
  let ms := st.markers_cams.filter (fun m => m.lon == lon && m.lat == lat)
  if ms.isEmpty then some st else remove_markers_loop ms st

/-- Embedding of Maps.remove_construction_area_from_calculator_thread
(source lines 412-421): the walk over construction_areas has exactly the
structure of the camera version above (the extra update_kivi_info_page
call notifies the UI and does not touch either registry), so it is
embedded by the same nested loops. -/
def remove_construction_area_from_calculator_thread (longitude latitude : Val) :
    Option (List CalcDict) → Option (Option (List CalcDict))
  | none => some none
  | some lst => (remove_cam_outer latitude longitude lst.length 0 lst).map some

/-- State touched by Maps.remove_all_construction_markers: the
construction-area marker registry, the calculator construction_areas list
(none when no calculator is set) and the markers removed from the map
view, in call order. -/
structure ConstructState where
  markers_construction_areas : List Marker
  construction_areas : Option (List CalcDict)
  removed_from_view : List Marker
deriving DecidableEq

/-- Loop of Maps.remove_all_construction_markers (source lines 407-411):
Python iterates the registry by an internal index while list.remove
shrinks it, so after the element at the current index is removed the
iterator skips the element that shifted into its place. Each processed
marker is removed from the map view, removed from the registry and
reconciled against the calculator, in that order. -/
def remove_all_construction_loop : Nat → Nat → ConstructState → Option ConstructState
  | 0, _, st => some st
  | fuel + 1, i, st =>
      if h : i < st.markers_construction_areas.length then
        let m := st.markers_construction_areas.get ⟨i, h⟩
        match pyListRemove st.markers_construction_areas m with
        | none => none
        | some reg2 =>
            match remove_construction_area_from_calculator_thread m.lon m.lat
                st.construction_areas with
            | none => none
            | some c2 =>
                remove_all_construction_loop fuel (i + 1)
                  { markers_construction_areas := reg2, construction_areas := c2,
                    removed_from_view := st.removed_from_view ++ [m] }
      else some st

/-- Embedding of Maps.remove_all_construction_markers. -/
def remove_all_construction_markers (st : ConstructState) : Option ConstructState :=
  remove_all_construction_loop st.markers_construction_areas.length 0 st

/-- The coordinate of a rendered marker, in (lat, lon) order. -/
def coordOf (m : Marker) : Val × Val := (m.lat, m.lon)

/-- The coordinates of all entries of all calculator dictionaries, in
iteration order. -/
def calc_coords (scd : List CalcDict) : List (Val × Val) :=
  (scd.map (fun d => d.map (fun kv => (kv.2.lat, kv.2.lon)))).flatten

/-- A calculator entry matches the target coordinate, exactly the
comparison made by the removal walks. -/
def entry_matches (lat lon : Val) (kv : String × CalcEntry) : Prop :=
  kv.2.lat = lat ∧ kv.2.lon = lon

instance (lat lon : Val) (kv : String × CalcEntry) :
    Decidable (entry_matches lat lon kv) := by
  unfold entry_matches; infer_instance

/-- Number of entries of one calculator dictionary matching the target
coordinate. -/
def match_count (lat lon : Val) (d : CalcDict) : Nat :=
  d.countP (fun kv => decide (entry_matches lat lon kv))

end Maps

/-- Concrete camera tuple with key FIX_A at coordinate (1, 2), the
placeholder defaults filled in. -/
def camFixA : Maps.SpeedCamTuple :=
  { key := "FIX_A", lat := Val.num 1, lon := Val.num 2, name := Val.str "---",
    direction := Val.str "---", maxspeed := Val.str "--- Km/h",
    maxspeed_conditional := Val.str "@ Always", description := Val.str "---" }

/-- Concrete camera tuple with key FIX_B at the same coordinate (1, 2). -/
def camFixB : Maps.SpeedCamTuple :=
  { key := "FIX_B", lat := Val.num 1, lon := Val.num 2, name := Val.str "---",
    direction := Val.str "---", maxspeed := Val.str "--- Km/h",
    maxspeed_conditional := Val.str "@ Always", description := Val.str "---" }

/-- Concrete construction-area marker at coordinate (1, 2). -/
def conMarkerA : Maps.Marker := { lat := Val.num 1, lon := Val.num 2, key := "CONSTRUCTION_A" }

/-- Concrete construction-area marker at coordinate (3, 4). -/
def conMarkerB : Maps.Marker := { lat := Val.num 3, lon := Val.num 4, key := "CONSTRUCTION_B" }

/-- Concrete camera marker at coordinate (1, 2). -/
def camMarkerA : Maps.Marker := { lat := Val.num 1, lon := Val.num 2, key := "FIX_A" }

/-- Concrete calculator entry at coordinate (1, 2). -/
def calcEntryA : Maps.CalcEntry :=
  { f0 := Val.str "camera", f1 := Val.str "a", lat := Val.num 1, lon := Val.num 2, rest := [] }

/-- C1: the specification claims that draw_speed_cams skips (logs, does
not add) a camera marker whose coordinate already has a rendered marker,
so rendering a batch twice keeps the rendered set size of one rendering
and of two same-coordinate tuples only the first is rendered. The code
contradicts this: the duplicate scan only logs and the marker is appended
anyway, so the batch with tuples FIX_A and FIX_B at coordinate (1, 2)
yields two rendered markers, rendering it twice yields four, while the
duplicate was detected and logged once during the first batch. -/
theorem draw_speed_cams_duplicate_coordinate_still_added :
    (Maps.draw_speed_cams [camFixA, camFixB] ⟨[], [], []⟩).markers_cams.length = 2 ∧
    (Maps.draw_speed_cams [camFixA, camFixB]
        (Maps.draw_speed_cams [camFixA, camFixB] ⟨[], [], []⟩)).markers_cams.length = 4 ∧
    (Maps.draw_speed_cams [camFixA, camFixB] ⟨[], [], []⟩).logs.length = 1 := by
  decide

/-- C2 counterexample: the claim says every worker drains every one of its
owned queues upon observing the termination flag. The voice worker's
terminal block leaves the AR queue untouched, and the OSM worker's
terminal block drains nothing at all. -/
theorem voice_terminal_drain_misses_ar_queue :
    ¬ VoicePromptThread.all_voice_queues_empty
        (VoicePromptThread.run_terminal
          { gpssignalqueue := [], maxspeedexceededqueue := [], onlinequeue := [],
            arqueue := ["AR_HUMAN"] }).1 ∧
    (OSMThread.run_terminal { map_queue := ["UPDATE"], poi_queue := [] }).1.map_queue
      = ["UPDATE"] := by
  decide

/-- C2 amended: upon observing the termination flag the voice worker
drains its GPS-signal, max-speed-exceeded and online queues once, leaves
its AR queue unchanged, logs termination and exits; the OSM worker logs
termination and exits without draining either of its owned queues. -/
theorem terminal_drain_clears_three_voice_queues_only :
    ∀ q : VoicePromptThread.VoiceQueues,
      ((VoicePromptThread.run_terminal q).1.gpssignalqueue = [] ∧
       (VoicePromptThread.run_terminal q).1.maxspeedexceededqueue = [] ∧
       (VoicePromptThread.run_terminal q).1.onlinequeue = [] ∧
       (VoicePromptThread.run_terminal q).1.arqueue = q.arqueue ∧
       (VoicePromptThread.run_terminal q).2 = "VoicePromptThread terminating") ∧
      ∀ oq : OSMThread.OsmQueues,
        (OSMThread.run_terminal oq).1 = oq ∧
        (OSMThread.run_terminal oq).2 = "OSMThread terminating" := by
  intro q
  exact ⟨⟨rfl, rfl, rfl, rfl, rfl⟩, fun oq => ⟨rfl, rfl⟩⟩

/-- C3: the claim says the exclusivity flag is cleared on completion on
every dispatch path, including the path where no sound can be loaded. On
that path the source dereferences the buffer attribute of the load result
before the None check, so play_sound raises AttributeError with the flag
still set; the clearing else branch is unreachable. The completion
callback, by contrast, does clear the flag. -/
theorem play_sound_none_leaves_lock_set :
    VoicePromptThread.play_sound none true =
      Except.error "AttributeError: NoneType has no attribute buffer" ∧
    VoicePromptThread.on_sound_playback_finished true = false := by
  exact ⟨rfl, rfl⟩

/-- C5: the claim says remove_all_construction_markers empties the
construction registry. The source iterates the registry while removing
from it, so the iterator skips every element shifted into a removed slot:
starting from the two-marker registry, the marker at (3, 4) survives both
in the registry. -/
theorem remove_all_construction_markers_leaves_survivor :
    Maps.remove_all_construction_markers ⟨[conMarkerA, conMarkerB], none, []⟩ =
      some ⟨[conMarkerB], none, [conMarkerA]⟩ ∧
    ([conMarkerB] : List Maps.Marker) ≠ [] := by
  decide

/-- C6 counterexample: the claim says an EXIT item stops the iteration
without any drawing. When the same iteration consumed a POI list, the POI
branch has already requested a redraw before the EXIT check, so the
iteration with item EXIT still issues one draw request. -/
theorem process_exit_after_poi_list_still_draws :
    (OSMThread.process "EXIT" (OSMThread.PoiItem.plist [1]) OSMThread.DrawOutcome.ok
        OSMThread.DrawOutcome.ok OSMThread.init_router).draw_attempts = 1 := by
  decide

/-- C6 amended: an EXIT item makes process return right after the POI
branch, issuing no further draw request of its own (a redraw may already
have been requested by the POI-list branch that same iteration); an
UPDATE item requests exactly one additional full redraw. -/
theorem process_exit_update_draw_requests :
    ∀ (item : String) (pois : OSMThread.PoiItem) (d1 d2 : OSMThread.DrawOutcome)
      (st : OSMThread.RouterState),
      (item = "EXIT" →
        OSMThread.process item pois d1 d2 st = OSMThread.poi_phase pois d1 st) ∧
      (item = "UPDATE" →
        OSMThread.process item pois d1 d2 st =
          OSMThread.try_draw_map d2 (OSMThread.poi_phase pois d1 st) ∧
        (OSMThread.process item pois d1 d2 st).draw_attempts =
          (OSMThread.poi_phase pois d1 st).draw_attempts + 1) := by
  intro item pois d1 d2 st
  constructor
  · intro h; subst h
    simp [OSMThread.process, OSMThread.item_phase]
  · intro h; subst h
    refine ⟨by simp [OSMThread.process, OSMThread.item_phase], ?_⟩
    cases d2 <;>
      simp [OSMThread.process, OSMThread.item_phase, OSMThread.try_draw_map]

/-- C6 amended witness at a concrete EXIT iteration and a concrete UPDATE
iteration. -/
theorem process_exit_update_draw_requests_witness :
    OSMThread.process "EXIT" OSMThread.PoiItem.other OSMThread.DrawOutcome.ok
        OSMThread.DrawOutcome.ok OSMThread.init_router =
      OSMThread.poi_phase OSMThread.PoiItem.other OSMThread.DrawOutcome.ok
        OSMThread.init_router ∧
    (OSMThread.process "UPDATE" OSMThread.PoiItem.other OSMThread.DrawOutcome.ok
        OSMThread.DrawOutcome.ok OSMThread.init_router =
      OSMThread.try_draw_map OSMThread.DrawOutcome.ok
        (OSMThread.poi_phase OSMThread.PoiItem.other OSMThread.DrawOutcome.ok
          OSMThread.init_router) ∧
     (OSMThread.process "UPDATE" OSMThread.PoiItem.other OSMThread.DrawOutcome.ok
        OSMThread.DrawOutcome.ok OSMThread.init_router).draw_attempts =
      (OSMThread.poi_phase OSMThread.PoiItem.other OSMThread.DrawOutcome.ok
        OSMThread.init_router).draw_attempts + 1) :=
  ⟨(process_exit_update_draw_requests "EXIT" OSMThread.PoiItem.other
      OSMThread.DrawOutcome.ok OSMThread.DrawOutcome.ok OSMThread.init_router).1 rfl,
   (process_exit_update_draw_requests "UPDATE" OSMThread.PoiItem.other
      OSMThread.DrawOutcome.ok OSMThread.DrawOutcome.ok OSMThread.init_router).2 rfl⟩

/-- C7: in static mode the trigger name resolves through the fixed elif
ladder to at most one asset path (the ladder is a function); GPS_OFF
resolves to gps_off.wav and GPS_ON to gps_established.wav under the sound
base path; and a trigger the ladder does not map leaves the sound at None,
so the dispatch schedules no playback, changes no state and raises no
error. -/
theorem static_trigger_resolution :
    ∀ basePath : String,
      VoicePromptThread.resolve_static_sound basePath "GPS_OFF" =
        some (VoicePromptThread.pjoin basePath "gps_off.wav") ∧
      VoicePromptThread.resolve_static_sound basePath "GPS_ON" =
        some (VoicePromptThread.pjoin basePath "gps_established.wav") ∧
      ∀ (voice_entry : String) (lock0 : Bool),
        VoicePromptThread.resolve_static_sound basePath voice_entry = none →
        VoicePromptThread.process_static basePath voice_entry lock0 =
          { lock := lock0, scheduled := none } := by
  intro basePath
  refine ⟨rfl, rfl, ?_⟩
  intro voice_entry lock0 h
  simp [VoicePromptThread.process_static, h]

/-- C7 witness at the concrete base path and an unmapped trigger. -/
theorem static_trigger_resolution_witness :
    VoicePromptThread.resolve_static_sound "sounds" "GPS_OFF" = some "sounds/gps_off.wav" ∧
    VoicePromptThread.process_static "sounds" "UNKNOWN_TRIGGER" false =
      { lock := false, scheduled := none } :=
  ⟨(static_trigger_resolution "sounds").1,
   (static_trigger_resolution "sounds").2.2 "UNKNOWN_TRIGGER" false rfl⟩

/-- C10: when no rendered camera marker matches the coordinate, the
matching snapshot is empty and remove_marker_from_map returns with the
registry, the calculator state and the map view untouched and without
raising. -/
theorem remove_marker_no_match_noop :
    ∀ (lon lat : Val) (st : Maps.RemoveState),
      (∀ m ∈ st.markers_cams, ¬ (m.lon = lon ∧ m.lat = lat)) →
      Maps.remove_marker_from_map lon lat st = some st := by
  intro lon lat st h
  have hfil : st.markers_cams.filter (fun m => m.lon == lon && m.lat == lat) = [] := by
    refine List.filter_eq_nil_iff.mpr ?_
    intro m hm
    simp only [Bool.and_eq_true, beq_iff_eq, not_and]
    intro h1 h2
    exact h m hm ⟨h1, h2⟩
  simp [Maps.remove_marker_from_map, hfil]

/-- C10 witness: removing at the unoccupied coordinate (5, 6) leaves the
one-marker state unchanged. -/
theorem remove_marker_no_match_noop_witness :
    Maps.remove_marker_from_map (Val.num 5) (Val.num 6)
        { markers_cams := [camMarkerA], speed_cam_dict := some [[("FIX_A", calcEntryA)]],
          removed_from_view := [] } =
      some { markers_cams := [camMarkerA], speed_cam_dict := some [[("FIX_A", calcEntryA)]],
             removed_from_view := [] } :=
  remove_marker_no_match_noop (Val.num 5) (Val.num 6) _ (by decide)

/-- C9: every gaierror or NewConnectionError raised by a draw_map call
inside OSMThread.process is caught and logged at ERROR severity, process
returns normally to the consume loop (the embedding stays a total
function), the redraw simply does not complete, and no other effect of
the iteration is altered: trigger, POI working set, pois-drawn flag,
stored route and even the number of draw requests agree with the
error-free run, while the completed-draw counter is unchanged and the k
failed requests append exactly k ERROR log lines. -/
theorem process_catches_network_errors :
    ∀ (item : String) (pois : OSMThread.PoiItem) (st : OSMThread.RouterState)
      (e : OSMThread.DrawOutcome),
      (e = OSMThread.DrawOutcome.gaierror ∨ e = OSMThread.DrawOutcome.newConnectionError) →
      ∃ k : Nat,
        (OSMThread.process item pois e e st).trigger =
          (OSMThread.process item pois OSMThread.DrawOutcome.ok OSMThread.DrawOutcome.ok st).trigger ∧
        (OSMThread.process item pois e e st).POIS =
          (OSMThread.process item pois OSMThread.DrawOutcome.ok OSMThread.DrawOutcome.ok st).POIS ∧
        (OSMThread.process item pois e e st).pois_drawn =
          (OSMThread.process item pois OSMThread.DrawOutcome.ok OSMThread.DrawOutcome.ok st).pois_drawn ∧
        (OSMThread.process item pois e e st).last_route =
          (OSMThread.process item pois OSMThread.DrawOutcome.ok OSMThread.DrawOutcome.ok st).last_route ∧
        (OSMThread.process item pois e e st).draw_attempts = st.draw_attempts + k ∧
        (OSMThread.process item pois OSMThread.DrawOutcome.ok OSMThread.DrawOutcome.ok st).draw_attempts
          = st.draw_attempts + k ∧
        (OSMThread.process item pois e e st).draws_completed = st.draws_completed ∧
        (OSMThread.process item pois e e st).error_logs =
          st.error_logs ++ List.replicate k ("ERROR", OSMThread.draw_error_message e) := by
  intro item pois st e he
  have hitem : item = "EXIT" ∨ item = "UPDATE" ∨ (item ≠ "EXIT" ∧ item ≠ "UPDATE") := by
    by_cases h1 : item = "EXIT"
    · exact Or.inl h1
    · by_cases h2 : item = "UPDATE"
      · exact Or.inr (Or.inl h2)
      · exact Or.inr (Or.inr ⟨h1, h2⟩)
  rcases he with rfl | rfl <;> cases pois <;>
      rcases hitem with rfl | rfl | ⟨h1, h2⟩ <;>
      simp_all only [OSMThread.process, OSMThread.item_phase, OSMThread.poi_phase,
        OSMThread.try_draw_map, OSMThread.draw_error_message, ne_eq,
        reduceIte, ite_false, ite_true] <;>
    first
      | (refine ⟨0, ?_⟩
         and_intros <;>
           first
             | rfl
             | omega
             | (simp [List.replicate, List.append_assoc]
                done))
      | (refine ⟨1, ?_⟩
         and_intros <;>
           first
             | rfl
             | omega
             | (simp [List.replicate, List.append_assoc]
                done))
      | (refine ⟨2, ?_⟩
         and_intros <;>
           first
             | rfl
             | omega
             | (simp [List.replicate, List.append_assoc]
                done))

/-- C9 witness at a concrete UPDATE iteration whose draw raises
gaierror. -/
theorem process_catches_network_errors_witness :
    ∃ k : Nat,
      (OSMThread.process "UPDATE" OSMThread.PoiItem.other OSMThread.DrawOutcome.gaierror
          OSMThread.DrawOutcome.gaierror OSMThread.init_router).trigger =
        (OSMThread.process "UPDATE" OSMThread.PoiItem.other OSMThread.DrawOutcome.ok
          OSMThread.DrawOutcome.ok OSMThread.init_router).trigger ∧
      (OSMThread.process "UPDATE" OSMThread.PoiItem.other OSMThread.DrawOutcome.gaierror
          OSMThread.DrawOutcome.gaierror OSMThread.init_router).POIS =
        (OSMThread.process "UPDATE" OSMThread.PoiItem.other OSMThread.DrawOutcome.ok
          OSMThread.DrawOutcome.ok OSMThread.init_router).POIS ∧
      (OSMThread.process "UPDATE" OSMThread.PoiItem.other OSMThread.DrawOutcome.gaierror
          OSMThread.DrawOutcome.gaierror OSMThread.init_router).pois_drawn =
        (OSMThread.process "UPDATE" OSMThread.PoiItem.other OSMThread.DrawOutcome.ok
          OSMThread.DrawOutcome.ok OSMThread.init_router).pois_drawn ∧
      (OSMThread.process "UPDATE" OSMThread.PoiItem.other OSMThread.DrawOutcome.gaierror
          OSMThread.DrawOutcome.gaierror OSMThread.init_router).last_route =
        (OSMThread.process "UPDATE" OSMThread.PoiItem.other OSMThread.DrawOutcome.ok
          OSMThread.DrawOutcome.ok OSMThread.init_router).last_route ∧
      (OSMThread.process "UPDATE" OSMThread.PoiItem.other OSMThread.DrawOutcome.gaierror
          OSMThread.DrawOutcome.gaierror OSMThread.init_router).draw_attempts =
        OSMThread.init_router.draw_attempts + k ∧
      (OSMThread.process "UPDATE" OSMThread.PoiItem.other OSMThread.DrawOutcome.ok
          OSMThread.DrawOutcome.ok OSMThread.init_router).draw_attempts =
        OSMThread.init_router.draw_attempts + k ∧
      (OSMThread.process "UPDATE" OSMThread.PoiItem.other OSMThread.DrawOutcome.gaierror
          OSMThread.DrawOutcome.gaierror OSMThread.init_router).draws_completed =
        OSMThread.init_router.draws_completed ∧
      (OSMThread.process "UPDATE" OSMThread.PoiItem.other OSMThread.DrawOutcome.gaierror
          OSMThread.DrawOutcome.gaierror OSMThread.init_router).error_logs =
        OSMThread.init_router.error_logs ++ List.replicate k
          ("ERROR", OSMThread.draw_error_message OSMThread.DrawOutcome.gaierror) :=
  process_catches_network_errors "UPDATE" OSMThread.PoiItem.other OSMThread.init_router
    OSMThread.DrawOutcome.gaierror (Or.inl rfl)

/-- A list of length at least two starts with two cons cells. -/
theorem exists_two_cons (attrs : List Val) (h : 2 ≤ attrs.length) :
    ∃ a0 a1 tl, attrs = a0 :: a1 :: tl := by
  cases attrs with
  | nil => simp at h
  | cons a0 rest =>
      cases rest with
      | nil => simp at h
      | cons a1 tl => exact ⟨a0, a1, tl, rfl⟩

/-- A tuple is built whenever the attribute list carries the two
coordinate positions. -/
theorem mkSpeedCamTuple_total (k : String) (attrs : List Val) (h : 2 ≤ attrs.length) :
    ∃ t, Maps.mkSpeedCamTuple k attrs = some t := by
  obtain ⟨a0, a1, tl, rfl⟩ := exists_two_cons attrs h
  exact ⟨_, rfl⟩

/-- Flattening one dictionary succeeds when every attribute list carries
at least the two coordinate positions. -/
theorem flatten_dict_total (d : Maps.CamAttrDict)
    (h : ∀ kv ∈ d, 2 ≤ kv.2.length) : ∃ ts, Maps.flatten_dict d = some ts := by
  induction d with
  | nil => exact ⟨[], rfl⟩
  | cons kv rest ih =>
      obtain ⟨ts, hts⟩ := ih (fun kv2 h2 => h kv2 (List.mem_cons_of_mem _ h2))
      obtain ⟨t0, hmk⟩ := mkSpeedCamTuple_total kv.1 kv.2 (h kv (List.mem_cons_self _ _))
      exact ⟨t0 :: ts, by simp [Maps.flatten_dict, hmk, hts]⟩

/-- Membership in the flattening of one dictionary is exactly being the
tuple of one of its items. -/
theorem flatten_dict_mem (t : Maps.SpeedCamTuple) (d : Maps.CamAttrDict) :
    ∀ ts, Maps.flatten_dict d = some ts →
      (t ∈ ts ↔ ∃ kv ∈ d, Maps.mkSpeedCamTuple kv.1 kv.2 = some t) := by
  induction d with
  | nil =>
      intro ts h
      simp only [Maps.flatten_dict, Option.some.injEq] at h
      subst h; simp
  | cons kv rest ih =>
      intro ts h
      simp only [Maps.flatten_dict] at h
      rcases hmk : Maps.mkSpeedCamTuple kv.1 kv.2 with _ | t0 <;> rw [hmk] at h
      · simp at h
      · rcases hfr : Maps.flatten_dict rest with _ | ts' <;> rw [hfr] at h
        · simp at h
        · simp only [Option.some.injEq] at h
          subst h
          constructor
          · intro hmem
            rcases List.mem_cons.mp hmem with rfl | hmem2
            · exact ⟨kv, List.mem_cons_self _ _, hmk⟩
            · obtain ⟨kv2, hkv2, hmk2⟩ := (ih ts' hfr).mp hmem2
              exact ⟨kv2, List.mem_cons_of_mem _ hkv2, hmk2⟩
          · rintro ⟨kv2, hkv2, hmk2⟩
            rcases List.mem_cons.mp hkv2 with rfl | hkv2
            · rw [hmk] at hmk2
              exact List.mem_cons.mpr (Or.inl (Option.some.inj hmk2).symm)
            · exact List.mem_cons.mpr (Or.inr ((ih ts' hfr).mpr ⟨kv2, hkv2, hmk2⟩))

/-- Flattening the whole consumed queue contents succeeds when every
attribute list carries the two coordinate positions. -/
theorem flatten_speed_cams_total (pc : List Maps.CamAttrDict)
    (h : ∀ d ∈ pc, ∀ kv ∈ d, 2 ≤ kv.2.length) :
    ∃ l, Maps.flatten_speed_cams pc = some l := by
  induction pc with
  | nil => exact ⟨[], rfl⟩
  | cons d rest ih =>
      obtain ⟨rs, hrs⟩ := ih (fun d2 h2 => h d2 (List.mem_cons_of_mem _ h2))
      obtain ⟨ts, hts⟩ := flatten_dict_total d (h d (List.mem_cons_self _ _))
      exact ⟨ts ++ rs, by simp [Maps.flatten_speed_cams, hts, hrs]⟩

/-- Membership in the full flattening is exactly being the tuple of one
item of one consumed dictionary. -/
theorem flatten_speed_cams_mem (t : Maps.SpeedCamTuple) (pc : List Maps.CamAttrDict) :
    ∀ l, Maps.flatten_speed_cams pc = some l →
      (t ∈ l ↔ ∃ d ∈ pc, ∃ kv ∈ d, Maps.mkSpeedCamTuple kv.1 kv.2 = some t) := by
  induction pc with
  | nil =>
      intro l h
      simp only [Maps.flatten_speed_cams, Option.some.injEq] at h
      subst h; simp
  | cons d rest ih =>
      intro l h
      simp only [Maps.flatten_speed_cams] at h
      rcases hts : Maps.flatten_dict d with _ | ts <;> rw [hts] at h
      · simp at h
      · rcases hrs : Maps.flatten_speed_cams rest with _ | rs <;> rw [hrs] at h
        · simp at h
        · simp only [Option.some.injEq] at h
          subst h
          constructor
          · intro hmem
            rcases List.mem_append.mp hmem with hl | hr
            · obtain ⟨kv, hkv, hmk⟩ := (flatten_dict_mem t d ts hts).mp hl
              exact ⟨d, List.mem_cons_self _ _, kv, hkv, hmk⟩
            · obtain ⟨d2, hd2, kv, hkv, hmk⟩ := (ih rs hrs).mp hr
              exact ⟨d2, List.mem_cons_of_mem _ hd2, kv, hkv, hmk⟩
          · rintro ⟨d2, hd2, kv, hkv, hmk⟩
            rcases List.mem_cons.mp hd2 with rfl | hd2
            · exact List.mem_append.mpr (Or.inl ((flatten_dict_mem t d2 ts hts).mpr ⟨kv, hkv, hmk⟩))
            · exact List.mem_append.mpr (Or.inr ((ih rs hrs).mpr ⟨d2, hd2, kv, hkv, hmk⟩))

/-- C8: for every contents of a camera queue whose attribute lists carry
the two coordinate positions, get_unique_speed_cam_list returns a list of
8-tuples in which no two elements are equal (deduplication is by exact
tuple equality, so both of two tuples that differ anywhere, including only
in a placeholder, stay members by the membership equivalence), membership
is exactly being the flattened tuple of a consumed item, and the tuple
constructor itself fills the placeholder defaults for the missing trailing
attributes: name and direction and description get the placeholder dashes,
maxspeed the Km/h placeholder and maxspeed_conditional the Always
placeholder. -/
theorem get_unique_speed_cam_list_spec :
    ∀ pc : List Maps.CamAttrDict,
      (∀ d ∈ pc, ∀ kv ∈ d, 2 ≤ kv.2.length) →
      (∃ l, Maps.get_unique_speed_cam_list pc = some l ∧
        l.Nodup ∧
        (∀ t, t ∈ l ↔ ∃ d ∈ pc, ∃ kv ∈ d, Maps.mkSpeedCamTuple kv.1 kv.2 = some t)) ∧
      (∀ (k : String) (attrs : List Val) (t : Maps.SpeedCamTuple),
        Maps.mkSpeedCamTuple k attrs = some t →
        (∃ a0 a1 tl, attrs = a0 :: a1 :: tl ∧ t.key = k ∧ t.lat = a0 ∧ t.lon = a1) ∧
        (attrs.length ≤ 7 → t.name = Val.str "---") ∧
        (attrs.length ≤ 8 → t.direction = Val.str "---") ∧
        (attrs.length ≤ 9 → t.maxspeed = Val.str "--- Km/h") ∧
        (attrs.length ≤ 10 → t.maxspeed_conditional = Val.str "@ Always") ∧
        (attrs.length ≤ 11 → t.description = Val.str "---")) := by
  intro pc hlen
  constructor
  · obtain ⟨fl, hfl⟩ := flatten_speed_cams_total pc hlen
    refine ⟨fl.dedup, ?_, List.nodup_dedup fl, ?_⟩
    · simp [Maps.get_unique_speed_cam_list, hfl]
    · intro t
      rw [List.mem_dedup]
      exact flatten_speed_cams_mem t pc fl hfl
  · intro k attrs t hmk
    cases attrs with
    | nil => exact absurd hmk (by simp [Maps.mkSpeedCamTuple])
    | cons a0 rest =>
        cases rest with
        | nil => exact absurd hmk (by simp [Maps.mkSpeedCamTuple])
        | cons a1 tl =>
            simp only [Maps.mkSpeedCamTuple, Option.some.injEq] at hmk
            subst hmk
            refine ⟨⟨a0, a1, tl, rfl, rfl, rfl, rfl⟩, ?_, ?_, ?_, ?_, ?_⟩ <;>
              intro hle <;> exact List.getD_eq_default _ _ (by omega)

/-- C8 witness at one consumed dictionary carrying a single two-attribute
camera entry. -/
theorem get_unique_speed_cam_list_spec_witness :
    (∃ l, Maps.get_unique_speed_cam_list [[("FIX_1", [Val.num 1, Val.num 2])]] = some l ∧
      l.Nodup ∧
      (∀ t, t ∈ l ↔ ∃ d ∈ ([[("FIX_1", [Val.num 1, Val.num 2])]] : List Maps.CamAttrDict),
        ∃ kv ∈ d, Maps.mkSpeedCamTuple kv.1 kv.2 = some t)) ∧
    (∀ (k : String) (attrs : List Val) (t : Maps.SpeedCamTuple),
      Maps.mkSpeedCamTuple k attrs = some t →
      (∃ a0 a1 tl, attrs = a0 :: a1 :: tl ∧ t.key = k ∧ t.lat = a0 ∧ t.lon = a1) ∧
      (attrs.length ≤ 7 → t.name = Val.str "---") ∧
      (attrs.length ≤ 8 → t.direction = Val.str "---") ∧
      (attrs.length ≤ 9 → t.maxspeed = Val.str "--- Km/h") ∧
      (attrs.length ≤ 10 → t.maxspeed_conditional = Val.str "@ Always") ∧
      (attrs.length ≤ 11 → t.description = Val.str "---")) :=
  get_unique_speed_cam_list_spec [[("FIX_1", [Val.num 1, Val.num 2])]] (by decide)

/-- Python list.remove finds the first occurrence: removing x from
pre ++ x :: post with x absent from pre yields pre ++ post. -/
theorem pyListRemove_append {α : Type} [DecidableEq α] (pre post : List α) (x : α)
    (hx : x ∉ pre) : Maps.pyListRemove (pre ++ x :: post) x = some (pre ++ post) := by
  induction pre with
  | nil => simp [Maps.pyListRemove]
  | cons y pre ih =>
      have hyx : y ≠ x := by
        intro he; subst he; exact hx (List.mem_cons_self _ _)
      simp only [List.cons_append, Maps.pyListRemove, if_neg hyx, List.append_eq]
      rw [ih (fun hmem => hx (List.mem_cons_of_mem _ hmem))]
      rfl

/-- The inner calculator walk leaves the list unchanged over items with no
matching entry. -/
theorem remove_cam_inner_no_match (lat lon : Val) (d : Maps.CalcDict) :
    ∀ (items : List (String × Maps.CalcEntry)) (lst : List Maps.CalcDict),
      (∀ kv ∈ items, ¬ Maps.entry_matches lat lon kv) →
      Maps.remove_cam_inner lat lon d items lst = some lst := by
  intro items
  induction items with
  | nil => intro lst _; rfl
  | cons kv rest ih =>
      intro lst h
      have hnc : ¬ (kv.2.lat = lat ∧ kv.2.lon = lon) := h kv (List.mem_cons_self _ _)
      simp only [Maps.remove_cam_inner, if_neg hnc]
      exact ih lst (fun kv2 h2 => h kv2 (List.mem_cons_of_mem _ h2))

/-- The inner calculator walk over items holding exactly one matching
entry performs exactly one successful list removal. -/
theorem remove_cam_inner_one_match (lat lon : Val) (d : Maps.CalcDict)
    (kv0 : String × Maps.CalcEntry) (is2 : List (String × Maps.CalcEntry))
    (h0 : Maps.entry_matches lat lon kv0)
    (h2 : ∀ kv ∈ is2, ¬ Maps.entry_matches lat lon kv) :
    ∀ (is1 : List (String × Maps.CalcEntry)) (lst lst2 : List Maps.CalcDict),
      (∀ kv ∈ is1, ¬ Maps.entry_matches lat lon kv) →
      Maps.pyListRemove lst d = some lst2 →
      Maps.remove_cam_inner lat lon d (is1 ++ kv0 :: is2) lst = some lst2 := by
  intro is1
  induction is1 with
  | nil =>
      intro lst lst2 _ hrem
      have hc : kv0.2.lat = lat ∧ kv0.2.lon = lon := h0
      simp only [List.nil_append, Maps.remove_cam_inner, if_pos hc, hrem]
      exact remove_cam_inner_no_match lat lon d is2 lst2 h2
  | cons kv rest ih =>
      intro lst lst2 h1 hrem
      have hnc : ¬ (kv.2.lat = lat ∧ kv.2.lon = lon) := h1 kv (List.mem_cons_self _ _)
      simp only [List.cons_append, Maps.remove_cam_inner, if_neg hnc]
      exact ih lst lst2 (fun kv2 hm => h1 kv2 (List.mem_cons_of_mem _ hm)) hrem

/-- The inner calculator walk of a dictionary over its own items, when
the dictionary holds exactly one matching entry. -/
theorem remove_cam_inner_self (lat lon : Val) (d : Maps.CalcDict)
    (hdec : ∃ is1 kv0 is2, d = is1 ++ kv0 :: is2 ∧
        (∀ kv ∈ is1, ¬ Maps.entry_matches lat lon kv) ∧
        Maps.entry_matches lat lon kv0 ∧
        (∀ kv ∈ is2, ¬ Maps.entry_matches lat lon kv))
    (lst lst2 : List Maps.CalcDict) (hrem : Maps.pyListRemove lst d = some lst2) :
    Maps.remove_cam_inner lat lon d d lst = some lst2 := by
  obtain ⟨is1, kv0, is2, rfl, h1, h0, h2⟩ := hdec
  exact remove_cam_inner_one_match lat lon _ kv0 is2 h0 h2 is1 lst lst2 h1 hrem

/-- The outer calculator walk is the identity on a list none of whose
dictionaries holds a matching entry. -/
theorem remove_cam_outer_no_match (lat lon : Val) :
    ∀ (fuel i : Nat) (lst : List Maps.CalcDict),
      (∀ d ∈ lst, ∀ kv ∈ d, ¬ Maps.entry_matches lat lon kv) →
      Maps.remove_cam_outer lat lon fuel i lst = some lst := by
  intro fuel
  induction fuel with
  | zero => intro i lst _; rfl
  | succ fuel ih =>
      intro i lst h
      simp only [Maps.remove_cam_outer]
      split
      · next hlt =>
          rw [remove_cam_inner_no_match lat lon _ _ lst (h _ (List.get_mem lst _ _))]
          exact ih (i + 1) lst h
      · rfl

/-- The outer calculator walk on pre ++ d :: post, where only d holds a
matching entry and it holds exactly one, removes exactly d. -/
theorem remove_cam_outer_main (lat lon : Val) (d : Maps.CalcDict)
    (hdec : ∃ is1 kv0 is2, d = is1 ++ kv0 :: is2 ∧
        (∀ kv ∈ is1, ¬ Maps.entry_matches lat lon kv) ∧
        Maps.entry_matches lat lon kv0 ∧
        (∀ kv ∈ is2, ¬ Maps.entry_matches lat lon kv)) :
    ∀ (fuel i : Nat) (pre post : List Maps.CalcDict),
      pre.length + 1 ≤ fuel + i → i ≤ pre.length → d ∉ pre →
      (∀ d2 ∈ pre, ∀ kv ∈ d2, ¬ Maps.entry_matches lat lon kv) →
      (∀ d2 ∈ post, ∀ kv ∈ d2, ¬ Maps.entry_matches lat lon kv) →
      Maps.remove_cam_outer lat lon fuel i (pre ++ d :: post) = some (pre ++ post) := by
  intro fuel
  induction fuel with
  | zero => intro i pre post hfuel hi _ _ _; omega
  | succ fuel ih =>
      intro i pre post hfuel hi hdpre hpre hpost
      have hlt : i < (pre ++ d :: post).length := by
        simp only [List.length_append, List.length_cons]; omega
      simp only [Maps.remove_cam_outer]
      rw [dif_pos hlt]
      rcases Nat.lt_or_ge i pre.length with hipre | hipre
      · have hget : (pre ++ d :: post).get ⟨i, hlt⟩ = pre.get ⟨i, hipre⟩ := by
          simp [List.get_eq_getElem, List.getElem_append_left hipre]
        rw [hget,
          remove_cam_inner_no_match lat lon _ _ _ (hpre _ (List.get_mem pre _ _))]
        exact ih (i + 1) pre post (by omega) (by omega) hdpre hpre hpost
      · have hieq : i = pre.length := le_antisymm hi hipre
        subst hieq
        have hget : (pre ++ d :: post).get ⟨pre.length, hlt⟩ = d := by
          simp only [List.get_eq_getElem]
          rw [List.getElem_append_right (le_refl pre.length)]
          simp
        rw [hget,
          remove_cam_inner_self lat lon d hdec _ _ (pyListRemove_append pre post d hdpre)]
        exact remove_cam_outer_no_match lat lon fuel (pre.length + 1) (pre ++ post)
          (fun d2 hm kv hkv =>
            (List.mem_append.mp hm).elim (fun hl => hpre d2 hl kv hkv)
              (fun hr => hpost d2 hr kv hkv))

/-- A list whose countP is one splits around its unique satisfying
element. -/
theorem countP_eq_one_decomp {α : Type} (p : α → Bool) :
    ∀ l : List α, l.countP p = 1 →
      ∃ l1 x l2, l = l1 ++ x :: l2 ∧ p x = true ∧
        (∀ y ∈ l1, ¬ p y = true) ∧ (∀ y ∈ l2, ¬ p y = true) := by
  intro l
  induction l with
  | nil => intro h; simp [List.countP_nil] at h
  | cons a rest ih =>
      intro h
      rw [List.countP_cons] at h
      by_cases hpa : p a = true
      · rw [if_pos hpa] at h
        have h0 : rest.countP p = 0 := by omega
        exact ⟨[], a, rest, rfl, hpa, by simp,
          fun y hy => List.countP_eq_zero.mp h0 y hy⟩
      · rw [if_neg hpa] at h
        obtain ⟨l1, x, l2, rfl, hx, h1, h2⟩ := ih (by omega)
        refine ⟨a :: l1, x, l2, rfl, hx, ?_, h2⟩
        intro y hy
        rcases List.mem_cons.mp hy with rfl | hy2
        · exact hpa
        · exact h1 y hy2

/-- A dictionary whose coordinates are pairwise distinct holds at most one
entry matching the target coordinate. -/
theorem countP_coord_le_one (lat lon : Val) :
    ∀ d : Maps.CalcDict,
      (d.map (fun kv => ((kv.2.lat, kv.2.lon) : Val × Val))).Nodup →
      d.countP (fun kv => decide (Maps.entry_matches lat lon kv)) ≤ 1 := by
  intro d
  induction d with
  | nil => intro _; simp [List.countP_nil]
  | cons kv rest ih =>
      intro hN
      simp only [List.map_cons] at hN
      obtain ⟨hhead, htail⟩ := List.nodup_cons.mp hN
      rw [List.countP_cons]
      by_cases hpa : Maps.entry_matches lat lon kv
      · have hc : ((kv.2.lat, kv.2.lon) : Val × Val) = (lat, lon) := by
          obtain ⟨h1, h2⟩ := hpa
          rw [h1, h2]
        have h0 : rest.countP (fun kv2 => decide (Maps.entry_matches lat lon kv2)) = 0 := by
          refine List.countP_eq_zero.mpr ?_
          intro kv2 hkv2 hp2
          have hm2 : Maps.entry_matches lat lon kv2 := of_decide_eq_true hp2
          refine hhead ?_
          refine List.mem_map.mpr ⟨kv2, hkv2, ?_⟩
          obtain ⟨h1, h2⟩ := hm2
          rw [h1, h2, hc]
        simp [h0, hpa]
      · have := ih htail
        simp only [decide_eq_true_eq, if_neg hpa]
        omega

/-- Under pairwise-distinct coordinates and an existing match, the
calculator list splits around the unique dictionary holding the unique
matching entry. -/
theorem calc_unique_decomp (lat lon : Val) :
    ∀ scd : List Maps.CalcDict,
      (Maps.calc_coords scd).Nodup →
      (∃ d ∈ scd, ∃ kv ∈ d, Maps.entry_matches lat lon kv) →
      ∃ pre d post, scd = pre ++ d :: post ∧ d ∉ pre ∧
        (∃ is1 kv0 is2, d = is1 ++ kv0 :: is2 ∧
          (∀ kv ∈ is1, ¬ Maps.entry_matches lat lon kv) ∧
          Maps.entry_matches lat lon kv0 ∧
          (∀ kv ∈ is2, ¬ Maps.entry_matches lat lon kv)) ∧
        (∀ d2 ∈ pre, ∀ kv ∈ d2, ¬ Maps.entry_matches lat lon kv) ∧
        (∀ d2 ∈ post, ∀ kv ∈ d2, ¬ Maps.entry_matches lat lon kv) := by
  intro scd
  induction scd with
  | nil =>
      rintro _ ⟨d, hd, _⟩
      exact absurd hd (List.not_mem_nil d)
  | cons d0 rest ih =>
      intro hN hE
      have hcoords : Maps.calc_coords (d0 :: rest) =
          d0.map (fun kv => (kv.2.lat, kv.2.lon)) ++ Maps.calc_coords rest := by
        simp [Maps.calc_coords]
      rw [hcoords] at hN
      by_cases hd0 : ∃ kv ∈ d0, Maps.entry_matches lat lon kv
      · refine ⟨[], d0, rest, rfl, List.not_mem_nil d0, ?_, by simp, ?_⟩
        · have hle := countP_coord_le_one lat lon d0 ((List.nodup_append.mp hN).1)
          have hge : 0 < d0.countP (fun kv => decide (Maps.entry_matches lat lon kv)) := by
            refine List.countP_pos_iff.mpr ?_
            obtain ⟨kv, hkv, hm⟩ := hd0
            exact ⟨kv, hkv, decide_eq_true hm⟩
          have h1 : d0.countP (fun kv => decide (Maps.entry_matches lat lon kv)) = 1 := by
            omega
          obtain ⟨l1, x, l2, hdec, hx, hl1, hl2⟩ := countP_eq_one_decomp _ d0 h1
          exact ⟨l1, x, l2, hdec, fun kv h hm => hl1 kv h (decide_eq_true hm),
            of_decide_eq_true hx,
            fun kv h hm => hl2 kv h (decide_eq_true hm)⟩
        · intro d2 hd2 kv hkv hm
          have hdisj := List.disjoint_of_nodup_append hN
          obtain ⟨kv0, hkv0, hm0⟩ := hd0
          have hc0 : ((lat, lon) : Val × Val) ∈ d0.map (fun x => (x.2.lat, x.2.lon)) := by
            refine List.mem_map.mpr ⟨kv0, hkv0, ?_⟩
            obtain ⟨h1, h2⟩ := hm0
            rw [h1, h2]
          have hc2 : ((lat, lon) : Val × Val) ∈ Maps.calc_coords rest := by
            have hin : ((lat, lon) : Val × Val) ∈ d2.map (fun x => (x.2.lat, x.2.lon)) := by
              refine List.mem_map.mpr ⟨kv, hkv, ?_⟩
              obtain ⟨h1, h2⟩ := hm
              rw [h1, h2]
            refine List.mem_flatten.mpr ⟨d2.map (fun x => (x.2.lat, x.2.lon)), ?_, hin⟩
            exact List.mem_map.mpr ⟨d2, hd2, rfl⟩
          exact hdisj hc0 hc2
      · have hErest : ∃ d ∈ rest, ∃ kv ∈ d, Maps.entry_matches lat lon kv := by
          obtain ⟨d, hd, kv, hkv, hm⟩ := hE
          rcases List.mem_cons.mp hd with rfl | hd2
          · exact absurd ⟨kv, hkv, hm⟩ hd0
          · exact ⟨d, hd2, kv, hkv, hm⟩
        obtain ⟨pre, d, post, hdec, hdpre, hdd, hpre, hpost⟩ :=
          ih (List.Nodup.of_append_right hN) hErest
        refine ⟨d0 :: pre, d, post, by rw [hdec, List.cons_append], ?_, hdd, ?_, hpost⟩
        · intro hmem
          rcases List.mem_cons.mp hmem with rfl | hmem2
          · obtain ⟨is1, kv0, is2, hdd2, _, h0, _⟩ := hdd
            refine hd0 ⟨kv0, ?_, h0⟩
            rw [hdd2]
            exact List.mem_append.mpr (Or.inr (List.mem_cons_self _ _))
          · exact hdpre hmem2
        · intro d2 hd2 kv hkv hm
          rcases List.mem_cons.mp hd2 with rfl | hd2b
          · exact hd0 ⟨kv, hkv, hm⟩
          · exact hpre d2 hd2b kv hkv hm

/-- Under pairwise-distinct coordinates, reconciling a present coordinate
against the calculator removes exactly the one dictionary holding it. -/
theorem remove_camera_calc_unique (lat lon : Val) (scd : List Maps.CalcDict)
    (hN : (Maps.calc_coords scd).Nodup)
    (hE : ∃ d ∈ scd, ∃ kv ∈ d, Maps.entry_matches lat lon kv) :
    ∃ d, d ∈ scd ∧ (∃ kv ∈ d, Maps.entry_matches lat lon kv) ∧
      Maps.remove_camera_from_calculator_thread lon lat (some scd) =
        some (some (scd.erase d)) := by
  obtain ⟨pre, d, post, rfl, hdpre, hdd, hpre, hpost⟩ := calc_unique_decomp lat lon scd hN hE
  have hmem : d ∈ pre ++ d :: post := List.mem_append.mpr (Or.inr (List.mem_cons_self _ _))
  have houter := remove_cam_outer_main lat lon d hdd (pre ++ d :: post).length 0 pre post
    (by simp only [List.length_append, List.length_cons]; omega) (Nat.zero_le _)
    hdpre hpre hpost
  have herase : (pre ++ d :: post).erase d = pre ++ post := by
    rw [List.erase_append_right _ hdpre, List.erase_cons_head]
  refine ⟨d, hmem, ?_, ?_⟩
  · obtain ⟨is1, kv0, is2, hdd2, _, h0, _⟩ := hdd
    refine ⟨kv0, ?_, h0⟩
    rw [hdd2]
    exact List.mem_append.mpr (Or.inr (List.mem_cons_self _ _))
  · simp only [Maps.remove_camera_from_calculator_thread]
    rw [houter, herase]
    rfl

/-- Under pairwise-distinct marker coordinates, the coordinate filter of
remove_marker_from_map returns exactly the one matching marker. -/
theorem filter_coord_single (lat lon : Val) :
    ∀ (reg : List Maps.Marker) (m : Maps.Marker),
      (reg.map Maps.coordOf).Nodup → m ∈ reg → m.lat = lat → m.lon = lon →
      reg.filter (fun x => x.lon == lon && x.lat == lat) = [m] := by
  intro reg
  induction reg with
  | nil =>
      intro m _ hm
      exact absurd hm (List.not_mem_nil m)
  | cons r rs ih =>
      intro m hN hm hlat hlon
      simp only [List.map_cons] at hN
      obtain ⟨hhead, htail⟩ := List.nodup_cons.mp hN
      rcases List.mem_cons.mp hm with rfl | hm2
      · have hpred : (m.lon == lon && m.lat == lat) = true := by
          simp [hlat, hlon]
        have hnil0 : rs.filter (fun x => x.lon == lon && x.lat == lat) = [] := by
          refine List.filter_eq_nil_iff.mpr ?_
          intro x hx hpx
          simp only [Bool.and_eq_true, beq_iff_eq] at hpx
          refine hhead (List.mem_map.mpr ⟨x, hx, ?_⟩)
          simp [Maps.coordOf, hpx.1, hpx.2, hlat, hlon]
        simp [List.filter_cons, hpred, hnil0]
      · rcases Bool.eq_false_or_eq_true (r.lon == lon && r.lat == lat) with ht | hf
        · exfalso
          simp only [Bool.and_eq_true, beq_iff_eq] at ht
          refine hhead (List.mem_map.mpr ⟨m, hm2, ?_⟩)
          simp [Maps.coordOf, hlat, hlon, ht.1, ht.2]
        · have hstep : List.filter (fun x => x.lon == lon && x.lat == lat) (r :: rs)
              = List.filter (fun x => x.lon == lon && x.lat == lat) rs := by
            simp [List.filter_cons, hf]
          rw [hstep]
          exact ih m htail hm2 hlat hlon

/-- C4: at a coordinate carrying exactly one rendered camera marker, with
coordinates pairwise distinct in both registries and the coordinate
present in the calculator, remove_marker_from_map removes exactly that one
marker from markers_cams, issues exactly one map-view removal for it, and
removes exactly the one matching entry from the calculator speed_cam_dict
list, never more from either registry (both registries shrink by exactly
one). -/
theorem remove_marker_reconciles_unique_coordinate :
    ∀ (lat lon : Val) (m : Maps.Marker) (reg : List Maps.Marker)
      (scd : List Maps.CalcDict),
      m ∈ reg → m.lat = lat → m.lon = lon →
      (reg.map Maps.coordOf).Nodup →
      (Maps.calc_coords scd).Nodup →
      (∃ d ∈ scd, ∃ kv ∈ d, Maps.entry_matches lat lon kv) →
      ∃ d, d ∈ scd ∧ (∃ kv ∈ d, Maps.entry_matches lat lon kv) ∧
        Maps.remove_marker_from_map lon lat
            { markers_cams := reg, speed_cam_dict := some scd, removed_from_view := [] } =
          some { markers_cams := reg.erase m, speed_cam_dict := some (scd.erase d),
                 removed_from_view := [m] } ∧
        (reg.erase m).length + 1 = reg.length ∧
        (scd.erase d).length + 1 = scd.length := by
  intro lat lon m reg scd hm hlat hlon hregN hcalcN hE
  obtain ⟨d, hd, hdm, hcalc⟩ := remove_camera_calc_unique lat lon scd hcalcN hE
  have hfil := filter_coord_single lat lon reg m hregN hm hlat hlon
  refine ⟨d, hd, hdm, ?_, ?_, ?_⟩
  · simp only [Maps.remove_marker_from_map, hfil, List.isEmpty_cons, Bool.false_eq_true,
      if_false, Maps.remove_markers_loop, hlat, hlon, hcalc, if_pos hm, List.nil_append]
  · have h1 := List.length_erase_of_mem hm
    have h2 : 0 < reg.length := List.length_pos_of_mem hm
    omega
  · have h1 := List.length_erase_of_mem hd
    have h2 : 0 < scd.length := List.length_pos_of_mem hd
    omega

/-- C4 witness at a one-marker registry and a one-dictionary calculator
sharing the coordinate (1, 2). -/
theorem remove_marker_reconciles_unique_coordinate_witness :
    ∃ d, d ∈ [[("FIX_A", calcEntryA)]] ∧
      (∃ kv ∈ d, Maps.entry_matches (Val.num 1) (Val.num 2) kv) ∧
      Maps.remove_marker_from_map (Val.num 2) (Val.num 1)
          { markers_cams := [camMarkerA],
            speed_cam_dict := some [[("FIX_A", calcEntryA)]],
            removed_from_view := [] } =
        some { markers_cams := [camMarkerA].erase camMarkerA,
               speed_cam_dict := some ([[("FIX_A", calcEntryA)]].erase d),
               removed_from_view := [camMarkerA] } ∧
      ([camMarkerA].erase camMarkerA).length + 1 = [camMarkerA].length ∧
      ([[("FIX_A", calcEntryA)]].erase d).length + 1 = [[("FIX_A", calcEntryA)]].length :=
  remove_marker_reconciles_unique_coordinate (Val.num 1) (Val.num 2) camMarkerA
    [camMarkerA] [[("FIX_A", calcEntryA)]] (by decide) rfl rfl (by decide) (by decide)
    (by decide)
